import Mathlib

/-!
Shallow embedding of `ecs-init/cache/cache.go` (package `cache` of
amazon-ecs-init): the on-disk cache of the ECS Agent image.

The Go code drives two injected collaborators, an `httpGetter` and a
`fileSystem`.  We embed the cache logic as pure Lean functions over

* an explicit filesystem state `FS` mapping paths to optional files
  (content bytes plus the permission the file was created with), and
* an environment record `Env` that fixes the outcome of each external
  call a single `DownloadAgent` run performs (the `MkdirAll` result, the
  two HTTP GETs, the temp-file creation, the stream copy, the rename).

The MD5 accumulator fed by the tee reader is a leaf crypto primitive; it
is passed in as a `digest : Bytes → Bytes` parameter producing the raw
digest bytes, and the code's `fmt.Sprintf("%x", ...)` rendering is
embedded as `hexEncode`.
-/

namespace EcsInitCache

/-- File paths, as in Go, are plain strings. -/
abbrev Path := String

/-- Byte sequences (`[]byte`); each entry is intended to be `< 256`. -/
abbrev Bytes := List Nat

/-- A file on disk: its content and the permission bits it was created
with (`os.WriteFile` and `ioutil.TempFile` only apply the mode at
creation; overwriting keeps the old mode). -/
structure File where
  data : Bytes
  perm : Nat
deriving Repr, DecidableEq

/-- Filesystem state: which file, if any, each path holds. -/
abbrev FS := Path → Option File

/-- Create or truncate-and-write the file at `p` (mode applied as the
kernel does for `O_CREATE`: only when the file did not exist). -/
def FS.writeFile (fs : FS) (p : Path) (data : Bytes) (perm : Nat) : FS :=
  fun q =>
    if q = p then
      match fs p with
      | some f => some ⟨data, f.perm⟩
      | none => some ⟨data, perm⟩
    else fs q

/-- Write through an open handle created fresh at mode `perm`
(the temp-file handle): content and mode are both set. -/
def FS.write (fs : FS) (p : Path) (f : File) : FS :=
  fun q => if q = p then some f else fs q

/-- `os.Remove`. -/
def FS.remove (fs : FS) (p : Path) : FS :=
  fun q => if q = p then none else fs q

/-- `os.Rename old new`: atomic; `new` receives exactly what `old` held
and `old` disappears. -/
def FS.rename (fs : FS) (old new : Path) : FS :=
  fun q => if q = new then fs old else if q = old then none else fs q

/-- An HTTP response as the code observes it: status code and full body. -/
structure Resp where
  statusCode : Nat
  body : Bytes
deriving Repr, DecidableEq

/-- The `config` package accessors used by `cache.go`; pure values here. -/
structure Config where
  cacheDirectory : String
  cacheState : Path
  agentTarball : Path
  agentRemoteTarball : String
  agentRemoteTarballMD5 : String
  desiredImageLocatorFile : Path

/-- `orwPerm = 0700` from `cache.go`. -/
def orwPerm : Nat := 0o700

/-- `ioutil.TempFile` creates the temporary file with mode `0600`. -/
def tempFilePerm : Nat := 0o600

/-- Go's `string(body)` on a `[]byte`: reinterpret each byte as the
character of the same code point (coincides with Go for ASCII data,
which is all the checksum bodies hold). -/
def stringOfBytes (bs : Bytes) : String :=
  String.mk (bs.map (fun b => Char.ofNat (b % 256)))

/-- The white-space test of `strings.TrimSpace` (`unicode.IsSpace`),
restricted to the Latin-1 range the fast path handles. -/
def isSpaceChar (c : Char) : Bool :=
  c = ' ' || c = '\t' || c = '\n' || c = '\x0b' || c = '\x0c' || c = '\r' ||
    c.toNat = 0x85 || c.toNat = 0xa0

/-- `strings.TrimSpace`: drop white space from both ends. -/
def trimSpace (s : String) : String :=
  String.mk (((s.data.dropWhile isSpaceChar).reverse.dropWhile isSpaceChar).reverse)

/-- One lowercase hex digit, as `fmt.Sprintf("%x", _)` renders a nibble. -/
def hexDigit (n : Nat) : Char :=
  if n < 10 then Char.ofNat (48 + n) else Char.ofNat (87 + n)

/-- `fmt.Sprintf("%x", bs)` on a `[]byte`: two lowercase hex digits per
byte, in order. -/
def hexEncode (bs : Bytes) : String :=
  String.mk (bs.foldr (fun b acc => hexDigit (b % 256 / 16) :: hexDigit (b % 16) :: acc) [])

/-- Outcomes of the external calls one `DownloadAgent` run performs, in
program order.  `copyPartial` is whatever prefix `io.Copy` managed to
write before failing (relevant only when `copyErr` is set). -/
structure Env where
  mkdirErr : Option String
  md5Get : Except String Resp
  md5ReadAllErr : Option String
  tarballGet : Except String Resp
  tempName : Path
  tempFileErr : Option String
  copyErr : Option String
  copyPartial : Bytes
  renameErr : Option String

/-- `getPublishedMd5Sum`: GET the checksum URL, surface transport errors,
read the whole body (never looking at the status code) and trim it. -/
def getPublishedMd5Sum (cfg : Config) (env : Env) : Except String String :=
  match env.md5Get with
  | .error e => .error e
  | .ok resp =>
    match env.md5ReadAllErr with
    | some e => .error e
    | none => .ok (trimSpace (stringOfBytes resp.body))

/-- `getPublishedTarball`: GET the tarball URL; transport errors surface
as-is; a non-200 status is the explicit unexpected-response error. -/
def getPublishedTarball (cfg : Config) (env : Env) : Except String Resp :=
  match env.tarballGet with
  | .error e => .error e
  | .ok resp =>
    if resp.statusCode ≠ 200 then
      .error ("unexpected response code " ++ toString resp.statusCode)
    else
      .ok resp

/-- `DownloadAgent`, returning the error result (`none` = success) and
the final filesystem state.

The deferred cleanup in the Go source removes the temp file only when
the function-local variable `err` is non-nil at exit.  Every early
`return` after temp-file creation goes through `err`, so the copy-error
and mismatch branches remove the temp file; but the final
`return d.fs.Rename(...)` returns the rename result directly without
assigning it to `err`, so a failed rename leaves the temp file in
place.  The embedding mirrors that exactly. -/
def DownloadAgent (cfg : Config) (digest : Bytes → Bytes) (env : Env) (fs : FS) :
    Option String × FS :=
  match env.mkdirErr with
  | some e => (some e, fs)
  | none =>
    match getPublishedMd5Sum cfg env with
    | .error e => (some e, fs)
    | .ok publishedMd5Sum =>
      match getPublishedTarball cfg env with
      | .error e => (some e, fs)
      | .ok resp =>
        match env.tempFileErr with
        | some e => (some e, fs)
        | none =>
          match env.copyErr with
          | some e =>
            (some e,
             FS.remove
               (FS.write (FS.write fs env.tempName ⟨[], tempFilePerm⟩)
                 env.tempName ⟨env.copyPartial, tempFilePerm⟩)
               env.tempName)
          | none =>
            if publishedMd5Sum ≠ hexEncode (digest resp.body) then
              (some ("mismatched md5sum while downloading " ++ cfg.agentRemoteTarball),
               FS.remove
                 (FS.write (FS.write fs env.tempName ⟨[], tempFilePerm⟩)
                   env.tempName ⟨resp.body, tempFilePerm⟩)
                 env.tempName)
            else
              match env.renameErr with
              | some e =>
                (some e,
                 FS.write (FS.write fs env.tempName ⟨[], tempFilePerm⟩)
                   env.tempName ⟨resp.body, tempFilePerm⟩)
              | none =>
                (none,
                 FS.rename
                   (FS.write (FS.write fs env.tempName ⟨[], tempFilePerm⟩)
                     env.tempName ⟨resp.body, tempFilePerm⟩)
                   env.tempName cfg.agentTarball)

/-- `fileNotEmpty`: stat the path; any stat error yields `false`,
otherwise test `size > 0`.  `stat` is the filesystem collaborator's
`Stat`, returning the size or an error. -/
def fileNotEmpty (stat : Path → Except String Nat) (filename : Path) : Bool :=
  match stat filename with
  | .error _ => false
  | .ok size => decide (size > 0)

/-- `IsAgentCached`: both the cache state file and the tarball are
present and non-empty. -/
def IsAgentCached (cfg : Config) (stat : Path → Except String Nat) : Bool :=
  fileNotEmpty stat cfg.cacheState && fileNotEmpty stat cfg.agentTarball

/-- `RecordCachedAgent`: write the byte `"1"` to the cache state path
with `orwPerm`.  `werr` is the filesystem's `WriteFile` verdict for this
call (it does not depend on what the path already holds). -/
def RecordCachedAgent (cfg : Config) (werr : Option String) (fs : FS) :
    Option String × FS :=
  match werr with
  | some e => (some e, fs)
  | none => (none, FS.writeFile fs cfg.cacheState [49] orwPerm)

/-- `bufio.Reader.ReadString('\n')`, described on the char list of the
whole stream: the data up to and including the first newline, or `none`
when the stream ends before a newline (Go returns `io.EOF`). -/
def takeThroughNewline : List Char → Option (List Char)
  | [] => none
  | c :: rest =>
    if c = '\n' then some [c] else (takeThroughNewline rest).map (c :: ·)

/-- The first-line read of `getDesiredImageFile`: the first line of the
locator content including its newline, or the EOF error. -/
def readStringNewline (content : String) : Except String String :=
  match takeThroughNewline content.data with
  | some l => .ok (String.mk l)
  | none => .error "EOF"

/-- `filepath.Base` (the `fs.Base` collaborator), Unix rules: empty path
gives ".", trailing slashes are dropped, the part after the last slash
remains, and an all-slash path gives "/". -/
def stringBase (path : String) : String :=
  if path = "" then "."
  else
    let noTrail := (path.data.reverse.dropWhile (· = '/')).reverse
    let last := (noTrail.reverse.takeWhile (· ≠ '/')).reverse
    if last = [] then "/" else String.mk last

/-- `getDesiredImageFile`: open the locator (its content or an open
error is `locator`), read the first newline-terminated line, then join
`CacheDirectory() + "/" + Base(line)` and trim surrounding space. -/
def getDesiredImageFile (cfg : Config) (locator : Except String String) :
    Except String Path :=
  match locator with
  | .error e => .error e
  | .ok content =>
    match readStringNewline content with
    | .error e => .error e
    | .ok desiredImageString =>
      .ok (trimSpace (cfg.cacheDirectory ++ "/" ++ stringBase desiredImageString))

/-- `LoadDesiredAgent`: resolve the desired image file, then open it via
`openF`.  The second component records which target path, if any, was
opened. -/
def LoadDesiredAgent (cfg : Config) (locator : Except String String)
    (openF : Path → Except String String) :
    Except String String × List Path :=
  match getDesiredImageFile cfg locator with
  | .error e => (.error e, [])
  | .ok p => (openF p, [p])

/-- `LoadCachedAgent`: open the agent tarball path. -/
def LoadCachedAgent (cfg : Config) (openF : Path → Except String String) :
    Except String String :=
  openF cfg.agentTarball

/-! Concrete instances used to exhibit satisfiability of the theorems'
hypotheses. -/

/-- A concrete configuration with the production default paths. -/
def cfgStd : Config :=
  { cacheDirectory := "/var/cache/ecs"
    cacheState := "/var/cache/ecs/state"
    agentTarball := "/var/cache/ecs/ecs-agent.tar"
    agentRemoteTarball := "https://s3.amazonaws.com/amazon-ecs-agent/ecs-agent-latest.tar"
    agentRemoteTarballMD5 := "https://s3.amazonaws.com/amazon-ecs-agent/ecs-agent-latest.tar.md5"
    desiredImageLocatorFile := "/var/cache/ecs/desired-image" }

/-- A digest oracle returning the fixed raw digest `[0xab]`. -/
def digestAB : Bytes → Bytes := fun _ => [0xab]

/-- An empty filesystem. -/
def fsEmpty : FS := fun _ => none

/-- Byte sequence of the ASCII string "ab". -/
def bytesLowerAB : Bytes := [97, 98]

/-- Byte sequence of the ASCII string "AB". -/
def bytesUpperAB : Bytes := [65, 66]

/-- A happy-path environment: checksum body "ab" (with a trailing
newline), tarball body `[1, 2, 3]`, every external call succeeding. -/
def envOk : Env :=
  { mkdirErr := none
    md5Get := .ok ⟨200, bytesLowerAB ++ [10]⟩
    md5ReadAllErr := none
    tarballGet := .ok ⟨200, [1, 2, 3]⟩
    tempName := "/tmp/ecs-agent.tar123"
    tempFileErr := none
    copyErr := none
    copyPartial := []
    renameErr := none }

/-- `envOk` with the rename failing. -/
def envRenameFail : Env := { envOk with renameErr := some "rename failed" }

/-- `envOk` with the stream copy failing half-way. -/
def envCopyFail : Env := { envOk with copyErr := some "copy failed", copyPartial := [1] }

/-- `envOk` with a published checksum ("deadbeef") that does not match
the computed digest. -/
def envMismatch : Env :=
  { envOk with md5Get := .ok ⟨200, [100, 101, 97, 100, 98, 101, 101, 102]⟩ }

/-- `envOk` with the published checksum spelled in uppercase ("AB"). -/
def envUpper : Env := { envOk with md5Get := .ok ⟨200, bytesUpperAB⟩ }

/-- `envOk` with the checksum endpoint answering 404 (body still "ab"). -/
def envMd5Status404 : Env := { envOk with md5Get := .ok ⟨404, bytesLowerAB⟩ }

/-- `envOk` with the tarball endpoint answering 404. -/
def envTarball404 : Env := { envOk with tarballGet := .ok ⟨404, [1, 2, 3]⟩ }

/-- A stat oracle over which `IsAgentCached` is exercised: the state
marker has one byte, the tarball three. -/
def statStd : Path → Except String Nat := fun p =>
  if p = "/var/cache/ecs/state" then .ok 1
  else if p = "/var/cache/ecs/ecs-agent.tar" then .ok 3
  else .error "no such file"

/-- A target-file oracle for `LoadDesiredAgent` witnesses. -/
def openNone : Path → Except String String := fun _ => .error "open not reached"

/-! ## Helper lemmas -/

theorem getPublishedTarball_ok_inv (cfg : Config) (env : Env) (r : Resp)
    (h : getPublishedTarball cfg env = Except.ok r) :
    env.tarballGet = Except.ok r := by
  unfold getPublishedTarball at h
  cases ht : env.tarballGet with
  | error e => rw [ht] at h; cases h
  | ok resp =>
    rw [ht] at h
    dsimp only at h
    by_cases hs : resp.statusCode ≠ 200
    · rw [if_pos hs] at h; cases h
    · rw [if_neg hs] at h
      injection h with h
      rw [h]

theorem takeThroughNewline_append (l r s : List Char)
    (h : takeThroughNewline l = some s) :
    takeThroughNewline (l ++ r) = some s := by
  induction l generalizing s with
  | nil => cases h
  | cons c cs ih =>
    rw [List.cons_append]
    unfold takeThroughNewline at h ⊢
    by_cases hc : c = '\n'
    · rw [if_pos hc] at h ⊢; exact h
    · rw [if_neg hc] at h ⊢
      cases hcs : takeThroughNewline cs with
      | none => rw [hcs] at h; cases h
      | some t =>
        rw [hcs] at h
        rw [ih t hcs]
        exact h

theorem takeThroughNewline_eq_none (l : List Char) (h : '\n' ∉ l) :
    takeThroughNewline l = none := by
  induction l with
  | nil => rfl
  | cons c cs ih =>
    simp only [List.mem_cons, not_or] at h
    unfold takeThroughNewline
    rw [if_neg (fun hc => h.1 hc.symm), ih h.2]
    rfl

theorem hexDigit_not_upper (n : Nat) (h : n < 16) :
    (hexDigit n).isUpper = false := by
  interval_cases n <;> decide

theorem hexEncode_all_not_upper (bs : Bytes) :
    (hexEncode bs).data.all (fun c => !c.isUpper) = true := by
  induction bs with
  | nil => rfl
  | cons b rest ih =>
    unfold hexEncode at ih ⊢
    simp only [List.foldr_cons, List.all_cons]
    have h1 : (hexDigit (b % 256 / 16)).isUpper = false :=
      hexDigit_not_upper _ (Nat.div_lt_of_lt_mul (by omega))
    have h2 : (hexDigit (b % 16)).isUpper = false :=
      hexDigit_not_upper _ (Nat.mod_lt _ (by omega))
    simp only [h1, h2, Bool.not_false, Bool.true_and]
    exact ih

/-! ## C4: `IsAgentCached` is the conjunction of the two non-emptiness
checks -/

/-- C4: `IsAgentCached` returns true iff both the cache state marker and
the agent tarball stat successfully with size strictly greater than
zero; any stat error on either path makes that check false, and the
result is the logical AND of the two checks. -/
theorem IsAgentCached_iff (cfg : Config) (stat : Path → Except String Nat) :
    IsAgentCached cfg stat = true ↔
      ((∃ n, stat cfg.cacheState = Except.ok n ∧ 0 < n) ∧
       (∃ m, stat cfg.agentTarball = Except.ok m ∧ 0 < m)) := by
  unfold IsAgentCached fileNotEmpty
  cases h1 : stat cfg.cacheState <;> cases h2 : stat cfg.agentTarball <;>
    simp [h1, h2]

/-! ## C8: `RecordCachedAgent` writes the sentinel and is idempotent -/

/-- C8: `RecordCachedAgent` writes exactly the one-byte sentinel `"1"`
to the cache state path (created with `orwPerm` when absent), a second
call leaves the filesystem exactly as one call does, and the call's
verdict is the `WriteFile` verdict alone — independent of any
pre-existing marker content. -/
theorem RecordCachedAgent_idempotent (cfg : Config) (werr : Option String) (fs : FS) :
    (RecordCachedAgent cfg none ((RecordCachedAgent cfg none fs).2)).2
        = (RecordCachedAgent cfg none fs).2
    ∧ (RecordCachedAgent cfg none fs).1 = none
    ∧ (∃ pm, (RecordCachedAgent cfg none fs).2 cfg.cacheState = some ⟨[49], pm⟩
        ∧ (fs cfg.cacheState = none → pm = orwPerm))
    ∧ (RecordCachedAgent cfg werr fs).1 = werr := by
  refine ⟨?_, rfl, ?_, ?_⟩
  · funext q
    by_cases hq : q = cfg.cacheState
    · subst hq
      cases h : fs cfg.cacheState <;> simp [RecordCachedAgent, FS.writeFile, h]
    · simp [RecordCachedAgent, FS.writeFile, hq]
  · cases h : fs cfg.cacheState with
    | none =>
      refine ⟨orwPerm, ?_, fun _ => rfl⟩
      simp [RecordCachedAgent, FS.writeFile, h]
    | some f =>
      refine ⟨f.perm, ?_, ?_⟩
      · simp [RecordCachedAgent, FS.writeFile, h]
      · intro hc; simp [h] at hc
  · cases werr <;> rfl

/-! ## C5: non-200 tarball status -/

/-- C5: a non-200 status on the tarball GET makes `DownloadAgent` return
the explicit unexpected-response error and hand back the filesystem
untouched — in particular no temporary file is created or left. -/
theorem DownloadAgent_non200_no_temp (cfg : Config) (digest : Bytes → Bytes)
    (env : Env) (fs : FS) (respM respT : Resp)
    (hmk : env.mkdirErr = none)
    (hget : env.md5Get = Except.ok respM)
    (hread : env.md5ReadAllErr = none)
    (htar : env.tarballGet = Except.ok respT)
    (hst : respT.statusCode ≠ 200) :
    DownloadAgent cfg digest env fs
      = (some ("unexpected response code " ++ toString respT.statusCode), fs) := by
  simp [DownloadAgent, getPublishedMd5Sum, getPublishedTarball, hmk, hget, hread,
        htar, hst]

/-- Concrete run of C5 at status 404. -/
theorem DownloadAgent_non200_no_temp_witness :
    DownloadAgent cfgStd digestAB envTarball404 fsEmpty
      = (some ("unexpected response code " ++ toString (404 : Nat)), fsEmpty) :=
  DownloadAgent_non200_no_temp cfgStd digestAB envTarball404 fsEmpty
    ⟨200, bytesLowerAB ++ [10]⟩ ⟨404, [1, 2, 3]⟩ rfl rfl rfl rfl (by decide)

/-! ## C1: checksum mismatch -/

/-- C1: when the trimmed published checksum differs from the hex-encoded
computed digest, `DownloadAgent` fails with the mismatch error naming
the remote tarball URL, the temporary file is gone, and the agent
tarball path holds exactly what it held before the call. -/
theorem DownloadAgent_mismatch_removes_temp (cfg : Config) (digest : Bytes → Bytes)
    (env : Env) (fs : FS) (respM respT : Resp)
    (hmk : env.mkdirErr = none)
    (hget : env.md5Get = Except.ok respM)
    (hread : env.md5ReadAllErr = none)
    (htar : env.tarballGet = Except.ok respT)
    (hst : respT.statusCode = 200)
    (htmp : env.tempFileErr = none)
    (hcopy : env.copyErr = none)
    (hne : trimSpace (stringOfBytes respM.body) ≠ hexEncode (digest respT.body))
    (hdist : env.tempName ≠ cfg.agentTarball) :
    (DownloadAgent cfg digest env fs).1
      = some ("mismatched md5sum while downloading " ++ cfg.agentRemoteTarball)
    ∧ (DownloadAgent cfg digest env fs).2 env.tempName = none
    ∧ (DownloadAgent cfg digest env fs).2 cfg.agentTarball = fs cfg.agentTarball := by
  have hd2 : cfg.agentTarball ≠ env.tempName := Ne.symm hdist
  simp [DownloadAgent, getPublishedMd5Sum, getPublishedTarball, hmk, hget, hread,
        htar, hst, htmp, hcopy, hne, FS.remove, FS.write, hd2]

/-- Concrete run of C1: published "deadbeef" against computed "ab". -/
theorem DownloadAgent_mismatch_removes_temp_witness :
    (DownloadAgent cfgStd digestAB envMismatch fsEmpty).1
      = some ("mismatched md5sum while downloading " ++ cfgStd.agentRemoteTarball)
    ∧ (DownloadAgent cfgStd digestAB envMismatch fsEmpty).2 envMismatch.tempName = none
    ∧ (DownloadAgent cfgStd digestAB envMismatch fsEmpty).2 cfgStd.agentTarball
        = fsEmpty cfgStd.agentTarball :=
  DownloadAgent_mismatch_removes_temp cfgStd digestAB envMismatch fsEmpty
    ⟨200, [100, 101, 97, 100, 98, 101, 101, 102]⟩ ⟨200, [1, 2, 3]⟩
    rfl rfl rfl rfl rfl rfl rfl (by decide) (by decide)

/-! ## C9: case-sensitive checksum comparison against lowercase hex -/

/-- C9: the checksum comparison is exact, case-sensitive string
equality and the computed digest is rendered in lowercase hex (no
uppercase character ever appears in it); hence a published checksum
that equals the digest's rendering up to letter case but is not its
exact lowercase spelling still fails with the mismatch error. -/
theorem DownloadAgent_checksum_case_sensitive (cfg : Config) (digest : Bytes → Bytes)
    (env : Env) (fs : FS) (respM respT : Resp)
    (hmk : env.mkdirErr = none)
    (hget : env.md5Get = Except.ok respM)
    (hread : env.md5ReadAllErr = none)
    (htar : env.tarballGet = Except.ok respT)
    (hst : respT.statusCode = 200)
    (htmp : env.tempFileErr = none)
    (hcopy : env.copyErr = none)
    (hcase : (trimSpace (stringOfBytes respM.body)).data.map Char.toLower
        = (hexEncode (digest respT.body)).data)
    (hne : trimSpace (stringOfBytes respM.body) ≠ hexEncode (digest respT.body)) :
    (DownloadAgent cfg digest env fs).1
      = some ("mismatched md5sum while downloading " ++ cfg.agentRemoteTarball)
    ∧ ((hexEncode (digest respT.body)).data.all fun c => !c.isUpper) = true := by
  refine ⟨?_, hexEncode_all_not_upper _⟩
  simp [DownloadAgent, getPublishedMd5Sum, getPublishedTarball, hmk, hget, hread,
        htar, hst, htmp, hcopy, hne]

/-- Concrete run of C9: published "AB" against computed "ab". -/
theorem DownloadAgent_checksum_case_sensitive_witness :
    (DownloadAgent cfgStd digestAB envUpper fsEmpty).1
      = some ("mismatched md5sum while downloading " ++ cfgStd.agentRemoteTarball)
    ∧ ((hexEncode (digestAB [1, 2, 3])).data.all fun c => !c.isUpper) = true :=
  DownloadAgent_checksum_case_sensitive cfgStd digestAB envUpper fsEmpty
    ⟨200, bytesUpperAB⟩ ⟨200, [1, 2, 3]⟩
    rfl rfl rfl rfl rfl rfl rfl (by decide) (by decide)

/-! ## C10: the checksum fetch ignores the response status -/

/-- C10: `getPublishedMd5Sum` never inspects the status code of the
checksum response: whenever the GET succeeds at transport level and the
body read succeeds, the trimmed body is returned as the expected
checksum — and an otherwise-successful `DownloadAgent` run succeeds
exactly when that trimmed body equals the hex-encoded computed
digest. -/
theorem getPublishedMd5Sum_ignores_status (cfg : Config) (digest : Bytes → Bytes)
    (env : Env) (fs : FS) (respM respT : Resp)
    (hget : env.md5Get = Except.ok respM)
    (hread : env.md5ReadAllErr = none)
    (hmk : env.mkdirErr = none)
    (htar : env.tarballGet = Except.ok respT)
    (hst : respT.statusCode = 200)
    (htmp : env.tempFileErr = none)
    (hcopy : env.copyErr = none)
    (hren : env.renameErr = none) :
    getPublishedMd5Sum cfg env = Except.ok (trimSpace (stringOfBytes respM.body))
    ∧ ((DownloadAgent cfg digest env fs).1 = none ↔
        trimSpace (stringOfBytes respM.body) = hexEncode (digest respT.body)) := by
  constructor
  · simp [getPublishedMd5Sum, hget, hread]
  · by_cases hpc : trimSpace (stringOfBytes respM.body) = hexEncode (digest respT.body)
    · simp [DownloadAgent, getPublishedMd5Sum, getPublishedTarball, hget, hread, hmk,
            htar, hst, htmp, hcopy, hren, hpc]
    · simp [DownloadAgent, getPublishedMd5Sum, getPublishedTarball, hget, hread, hmk,
            htar, hst, htmp, hcopy, hpc]

/-- Concrete run of C10: the checksum endpoint answers 404 with body
"ab", yet that body is used as the checksum and the run succeeds. -/
theorem getPublishedMd5Sum_ignores_status_witness :
    getPublishedMd5Sum cfgStd envMd5Status404
        = Except.ok (trimSpace (stringOfBytes bytesLowerAB))
    ∧ ((DownloadAgent cfgStd digestAB envMd5Status404 fsEmpty).1 = none ↔
        trimSpace (stringOfBytes bytesLowerAB) = hexEncode (digestAB [1, 2, 3])) :=
  getPublishedMd5Sum_ignores_status cfgStd digestAB envMd5Status404 fsEmpty
    ⟨404, bytesLowerAB⟩ ⟨200, [1, 2, 3]⟩ rfl rfl rfl rfl rfl rfl rfl rfl

/-! ## C2: the tarball path is mutated only by the final rename -/

/-- C2: across every run of `DownloadAgent` (with the fresh temporary
name distinct from the tarball path), the agent tarball path keeps its
previous content on every failing run, and on a successful run it holds
exactly the fully downloaded body, whose hex-encoded digest the
published checksum was verified to equal; no path other than the
temporary file and the agent tarball is ever touched. -/
theorem DownloadAgent_tarball_only_by_rename (cfg : Config) (digest : Bytes → Bytes)
    (env : Env) (fs : FS) (p : Path)
    (hdist : env.tempName ≠ cfg.agentTarball)
    (hp1 : p ≠ env.tempName) (hp2 : p ≠ cfg.agentTarball) :
    ((DownloadAgent cfg digest env fs).1 ≠ none →
        (DownloadAgent cfg digest env fs).2 cfg.agentTarball = fs cfg.agentTarball)
    ∧ ((DownloadAgent cfg digest env fs).1 = none →
        ∃ respT : Resp, env.tarballGet = Except.ok respT
          ∧ (DownloadAgent cfg digest env fs).2 cfg.agentTarball
              = some ⟨respT.body, tempFilePerm⟩
          ∧ getPublishedMd5Sum cfg env = Except.ok (hexEncode (digest respT.body)))
    ∧ (DownloadAgent cfg digest env fs).2 p = fs p := by
  have hd2 : cfg.agentTarball ≠ env.tempName := Ne.symm hdist
  unfold DownloadAgent
  cases hmk : env.mkdirErr with
  | some e => simp
  | none =>
    cases hmd : getPublishedMd5Sum cfg env with
    | error e => simp
    | ok pub =>
      cases htar : getPublishedTarball cfg env with
      | error e => simp
      | ok respT =>
        cases htmp : env.tempFileErr with
        | some e => simp
        | none =>
          cases hcopy : env.copyErr with
          | some e => simp [FS.remove, FS.write, hp1, hp2, hd2]
          | none =>
            dsimp only
            by_cases hpc : pub = hexEncode (digest respT.body)
            · rw [if_neg (not_not_intro hpc)]
              cases hren : env.renameErr with
              | some e =>
                refine ⟨fun _ => ?_, fun h => absurd h (by simp), ?_⟩
                · simp [FS.write, hd2]
                · simp [FS.write, hp1]
              | none =>
                refine ⟨fun h => absurd rfl h,
                  fun _ => ⟨respT, getPublishedTarball_ok_inv cfg env respT htar, ?_, ?_⟩,
                  ?_⟩
                · simp [FS.rename, FS.write]
                · rw [hpc]
                · simp [FS.rename, FS.write, hp1, hp2]
            · rw [if_pos hpc]
              refine ⟨fun _ => ?_, fun h => absurd h (by simp), ?_⟩
              · simp [FS.remove, FS.write, hd2]
              · simp [FS.remove, FS.write, hp1]

/-- Concrete run of C2 on the all-success environment. -/
theorem DownloadAgent_tarball_only_by_rename_witness :
    ((DownloadAgent cfgStd digestAB envOk fsEmpty).1 ≠ none →
        (DownloadAgent cfgStd digestAB envOk fsEmpty).2 cfgStd.agentTarball
          = fsEmpty cfgStd.agentTarball)
    ∧ ((DownloadAgent cfgStd digestAB envOk fsEmpty).1 = none →
        ∃ respT : Resp, envOk.tarballGet = Except.ok respT
          ∧ (DownloadAgent cfgStd digestAB envOk fsEmpty).2 cfgStd.agentTarball
              = some ⟨respT.body, tempFilePerm⟩
          ∧ getPublishedMd5Sum cfgStd envOk
              = Except.ok (hexEncode (digestAB respT.body)))
    ∧ (DownloadAgent cfgStd digestAB envOk fsEmpty).2 "/var/cache/ecs/other"
        = fsEmpty "/var/cache/ecs/other" :=
  DownloadAgent_tarball_only_by_rename cfgStd digestAB envOk fsEmpty
    "/var/cache/ecs/other" (by decide) (by decide) (by decide)

/-! ## C3: cleanup discipline after the temporary file exists -/

/-- C3 counterexample: with every step succeeding except the final
rename, `DownloadAgent` exits with the rename error yet the temporary
file is still on disk, so "the temporary file is removed on every error
raised after its creation, including a rename failure" is false of the
code: the deferred cleanup keys on the tracked `err` variable, which
the direct `return d.fs.Rename(...)` bypasses. -/
theorem DownloadAgent_rename_failure_keeps_temp :
    (DownloadAgent cfgStd digestAB envRenameFail fsEmpty).1 = some "rename failed"
    ∧ (DownloadAgent cfgStd digestAB envRenameFail fsEmpty).2 envRenameFail.tempName
        = some ⟨[1, 2, 3], tempFilePerm⟩ := by
  constructor <;> rfl

/-- C3 amended: after the temporary file exists, a copy failure and a
checksum mismatch remove it before returning their error; a rename
failure returns the rename error with the temporary file left in place;
the success path leaves no temporary file because the rename consumed
it into the tarball path. -/
theorem DownloadAgent_cleanup_discipline (cfg : Config) (digest : Bytes → Bytes)
    (env : Env) (fs : FS) (respM respT : Resp)
    (hdist : env.tempName ≠ cfg.agentTarball)
    (hmk : env.mkdirErr = none)
    (hget : env.md5Get = Except.ok respM)
    (hread : env.md5ReadAllErr = none)
    (htar : env.tarballGet = Except.ok respT)
    (hst : respT.statusCode = 200)
    (htmp : env.tempFileErr = none) :
    (env.copyErr ≠ none →
        (DownloadAgent cfg digest env fs).1 = env.copyErr
        ∧ (DownloadAgent cfg digest env fs).2 env.tempName = none)
    ∧ (env.copyErr = none →
        trimSpace (stringOfBytes respM.body) ≠ hexEncode (digest respT.body) →
        (DownloadAgent cfg digest env fs).1
            = some ("mismatched md5sum while downloading " ++ cfg.agentRemoteTarball)
        ∧ (DownloadAgent cfg digest env fs).2 env.tempName = none)
    ∧ (env.copyErr = none →
        trimSpace (stringOfBytes respM.body) = hexEncode (digest respT.body) →
        env.renameErr ≠ none →
        (DownloadAgent cfg digest env fs).1 = env.renameErr
        ∧ (DownloadAgent cfg digest env fs).2 env.tempName
            = some ⟨respT.body, tempFilePerm⟩)
    ∧ (env.copyErr = none →
        trimSpace (stringOfBytes respM.body) = hexEncode (digest respT.body) →
        env.renameErr = none →
        (DownloadAgent cfg digest env fs).1 = none
        ∧ (DownloadAgent cfg digest env fs).2 env.tempName = none
        ∧ (DownloadAgent cfg digest env fs).2 cfg.agentTarball
            = some ⟨respT.body, tempFilePerm⟩) := by
  have hd2 : cfg.agentTarball ≠ env.tempName := Ne.symm hdist
  refine ⟨?_, ?_, ?_, ?_⟩
  · intro hc
    obtain ⟨e, he⟩ := Option.ne_none_iff_exists'.mp hc
    simp [DownloadAgent, getPublishedMd5Sum, getPublishedTarball, hmk, hget, hread,
          htar, hst, htmp, he, FS.remove, FS.write]
  · intro hc hne
    simp [DownloadAgent, getPublishedMd5Sum, getPublishedTarball, hmk, hget, hread,
          htar, hst, htmp, hc, hne, FS.remove, FS.write]
  · intro hc hpc hr
    obtain ⟨e, he⟩ := Option.ne_none_iff_exists'.mp hr
    simp [DownloadAgent, getPublishedMd5Sum, getPublishedTarball, hmk, hget, hread,
          htar, hst, htmp, hc, hpc, he, FS.write]
  · intro hc hpc hr
    simp [DownloadAgent, getPublishedMd5Sum, getPublishedTarball, hmk, hget, hread,
          htar, hst, htmp, hc, hpc, hr, FS.rename, FS.write, hdist, hd2]

/-- Concrete run of the amended C3 on a failing copy. -/
theorem DownloadAgent_cleanup_discipline_witness :
    (DownloadAgent cfgStd digestAB envCopyFail fsEmpty).1 = envCopyFail.copyErr
    ∧ (DownloadAgent cfgStd digestAB envCopyFail fsEmpty).2 envCopyFail.tempName
        = none :=
  (DownloadAgent_cleanup_discipline cfgStd digestAB envCopyFail fsEmpty
    ⟨200, bytesLowerAB ++ [10]⟩ ⟨200, [1, 2, 3]⟩
    (by decide) rfl rfl rfl rfl rfl rfl).1 (by decide)

/-! ## C6: desired-image resolution -/

/-- C6: `getDesiredImageFile` reads only the first newline-terminated
line of the locator content (whatever follows the newline is ignored),
takes the basename of that line, joins it with the cache directory and
trims surrounding white space: under cache directory "/var/cache/ecs",
both the line "foo.tar" and the line "/etc/foo.tar" resolve to
"/var/cache/ecs/foo.tar". -/
theorem getDesiredImageFile_first_line_basename (cfg : Config) (rest : String)
    (hdir : cfg.cacheDirectory = "/var/cache/ecs") :
    getDesiredImageFile cfg (Except.ok ("foo.tar\n" ++ rest))
        = Except.ok "/var/cache/ecs/foo.tar"
    ∧ getDesiredImageFile cfg (Except.ok ("/etc/foo.tar\n" ++ rest))
        = Except.ok "/var/cache/ecs/foo.tar" := by
  obtain ⟨l⟩ := rest
  constructor
  · have hs : ("foo.tar\n" ++ String.mk l) = String.mk ("foo.tar\n".data ++ l) := rfl
    rw [hs]
    unfold getDesiredImageFile readStringNewline
    dsimp only
    rw [takeThroughNewline_append ("foo.tar\n".data) l ("foo.tar\n".data) (by decide)]
    simp only [hdir]
    rfl
  · have hs : ("/etc/foo.tar\n" ++ String.mk l)
        = String.mk ("/etc/foo.tar\n".data ++ l) := rfl
    rw [hs]
    unfold getDesiredImageFile readStringNewline
    dsimp only
    rw [takeThroughNewline_append ("/etc/foo.tar\n".data) l ("/etc/foo.tar\n".data)
      (by decide)]
    simp only [hdir]
    rfl

/-- Concrete run of C6 with a reserved second line present. -/
theorem getDesiredImageFile_first_line_basename_witness :
    getDesiredImageFile cfgStd (Except.ok ("foo.tar\n" ++ "second line reserved"))
        = Except.ok "/var/cache/ecs/foo.tar"
    ∧ getDesiredImageFile cfgStd (Except.ok ("/etc/foo.tar\n" ++ "second line reserved"))
        = Except.ok "/var/cache/ecs/foo.tar" :=
  getDesiredImageFile_first_line_basename cfgStd "second line reserved" rfl

/-! ## C7: a locator without a newline fails -/

/-- C7: when the locator content contains no newline before EOF,
`LoadDesiredAgent` returns the EOF error and opens no target file, even
for non-empty content. -/
theorem LoadDesiredAgent_no_newline_fails (cfg : Config) (content : String)
    (openF : Path → Except String String) (h : '\n' ∉ content.data) :
    LoadDesiredAgent cfg (Except.ok content) openF = (Except.error "EOF", []) := by
  unfold LoadDesiredAgent getDesiredImageFile readStringNewline
  dsimp only
  rw [takeThroughNewline_eq_none content.data h]

/-- Concrete run of C7 on a non-empty locator with no newline. -/
theorem LoadDesiredAgent_no_newline_fails_witness :
    LoadDesiredAgent cfgStd (Except.ok "ecs-agent-v1.tar") openNone
        = (Except.error "EOF", []) :=
  LoadDesiredAgent_no_newline_fails cfgStd "ecs-agent-v1.tar" openNone (by decide)

end EcsInitCache
